import Mathlib

/-!
Shallow embedding of `src/server.js` (a minimal Express backend with three
handlers: health, OAuth callback `/on_auth`, and `/upload`) together with
proofs of the behavioural properties claimed for it.

The outbound token-endpoint call made by `/on_auth` is modelled by an
explicit oracle argument (what the external endpoint would answer), and the
handler additionally returns the list of outbound calls it issued, so that
"makes no external call" and "exactly one outbound attempt" are statable.
The `/upload` handler's side effects on `/tmp` are modelled by threading a
finite set of existing file paths; `fs.unlinkSync` throws when the path does
not exist, and the `try`/`catch` of the handler is split into a fallible
body (`uploadTry`) and a catching wrapper (`uploadHandler`).
-/

/-- JavaScript string truthiness for an optional string field:
`undefined` and the empty string are falsy (`!code`, `!accessToken`). -/
def jsTruthy : Option String → Bool
  | none => false
  | some s => s ≠ ""

/-- JavaScript `x || d` on an optional string configuration value
(`process.env.FRONTEND_URL || '/'`): absent or empty falls back. -/
def jsOrDefault : Option String → String → String
  | none, d => d
  | some s, d => if s = "" then d else s

/-- Lookup of a query/body parameter in a request, as an association list
(`req.query.code`, `req.body.access_token`). -/
def lookupParam (q : List (String × String)) (k : String) : Option String :=
  (q.find? (fun p => p.1 = k)).map (fun p => p.2)

/-- JSON values, the shape of `tokenResp.data` and of the JSON response
bodies produced with `res.json(...)`. -/
inductive Json where
  | null : Json
  | bool (b : Bool) : Json
  | num (n : Int) : Json
  | str (s : String) : Json
  | arr (elems : List Json) : Json
  | obj (fields : List (String × Json)) : Json

/-- Field lookup in a JSON object; `none` on non-objects or absent keys. -/
def Json.lookup : Json → String → Option Json
  | .obj fields, k => (fields.find? (fun p => p.1 = k)).map (fun p => p.2)
  | _, _ => none

/-- Upper-case hexadecimal digit for `n < 16`. -/
def hexDigit (n : Nat) : Char :=
  if n < 10 then Char.ofNat (48 + n) else Char.ofNat (55 + n)

/-- Four-digit hexadecimal rendering, for JSON `\uXXXX` escapes. -/
def hex4 (n : Nat) : String :=
  String.mk [hexDigit (n / 4096 % 16), hexDigit (n / 256 % 16),
             hexDigit (n / 16 % 16), hexDigit (n % 16)]

/-- JSON string escaping of one character, as `JSON.stringify` performs it. -/
def escapeJsonChar (c : Char) : String :=
  if c = '"' then "\\\""
  else if c = '\\' then "\\\\"
  else if c = '\n' then "\\n"
  else if c = '\r' then "\\r"
  else if c = '\t' then "\\t"
  else if c.toNat = 8 then "\\b"
  else if c.toNat = 12 then "\\f"
  else if c.toNat < 32 then "\\u" ++ hex4 c.toNat
  else String.singleton c

/-- JSON string escaping (`JSON.stringify` on string contents). -/
def escapeJsonString (s : String) : String :=
  String.join (s.data.map escapeJsonChar)

mutual

/-- Model of `JSON.stringify` on `Json` values. -/
def Json.stringify : Json → String
  | .null => "null"
  | .bool true => "true"
  | .bool false => "false"
  | .num n => toString n
  | .str s => "\"" ++ escapeJsonString s ++ "\""
  | .arr elems => "[" ++ stringifyElems elems ++ "]"
  | .obj fields => "\x7b" ++ stringifyFields fields ++ "\x7d"

/-- Comma-separated serialization of JSON array elements. -/
def stringifyElems : List Json → String
  | [] => ""
  | [x] => Json.stringify x
  | x :: xs => Json.stringify x ++ "," ++ stringifyElems xs

/-- Comma-separated serialization of JSON object fields. -/
def stringifyFields : List (String × Json) → String
  | [] => ""
  | [(k, v)] => "\"" ++ escapeJsonString k ++ "\":" ++ Json.stringify v
  | (k, v) :: fs =>
      "\"" ++ escapeJsonString k ++ "\":" ++ Json.stringify v ++ "," ++ stringifyFields fs

end

/-- Characters left unescaped by `encodeURIComponent`:
`A-Z a-z 0-9 - _ . ! ~ * ' ( )`, by code point. -/
def isUriUnreserved (n : Nat) : Bool :=
  (65 ≤ n && n ≤ 90) || (97 ≤ n && n ≤ 122) || (48 ≤ n && n ≤ 57) ||
  n = 45 || n = 95 || n = 46 || n = 33 || n = 126 || n = 42 ||
  n = 39 || n = 40 || n = 41

/-- UTF-8 encoding of a code point, as the list of its bytes. -/
def utf8Bytes (n : Nat) : List Nat :=
  if n < 128 then [n]
  else if n < 2048 then [192 + n / 64, 128 + n % 64]
  else if n < 65536 then [224 + n / 4096, 128 + n / 64 % 64, 128 + n % 64]
  else [240 + n / 262144, 128 + n / 4096 % 64, 128 + n / 64 % 64, 128 + n % 64]

/-- Percent-encoding of one byte, upper-case hex. -/
def percentByte (b : Nat) : String :=
  String.mk ['%', hexDigit (b / 16), hexDigit (b % 16)]

/-- Model of JavaScript `encodeURIComponent`. -/
def encodeURIComponent (s : String) : String :=
  String.join (s.data.map (fun c =>
    if isUriUnreserved c.toNat then String.singleton c
    else String.join ((utf8Bytes c.toNat).map percentByte)))

/-- Body of an HTTP response: `res.send` text, `res.json` JSON, or the
`Location` of a `res.redirect`. -/
inductive RespBody where
  | text (s : String) : RespBody
  | json (j : Json) : RespBody
  | redirect (location : String) : RespBody

/-- An HTTP response as the handlers produce it. -/
structure HttpResponse where
  status : Nat
  body : RespBody

/-- An outbound HTTP request issued by a handler via `axios`. `params` are
URL query parameters (the axios `params` option); `body` is the request
body (`null` in the source). -/
structure OutboundCall where
  method : String
  url : String
  body : Option String
  params : List (String × String)
deriving DecidableEq

/-- A thrown JavaScript error, carrying its `message`. -/
structure JsErr where
  message : String
deriving DecidableEq

/-- Startup configuration read from the environment: `TIKTOK_CLIENT_KEY`,
`TIKTOK_CLIENT_SECRET`, and `FRONTEND_URL` (optional, may be unset). The
unused `TIKTOK_REDIRECT_URI` and `PORT` do not influence the handlers. -/
structure AuthConfig where
  clientKey : String
  clientSecret : String
  frontendUrl : Option String
deriving DecidableEq

/-- URL of the platform token endpoint (`axios.post` target). -/
def tokenEndpointUrl : String :=
  "https://open-api.tiktok.com/oauth/access_token/"

/-- The single outbound POST issued by `/on_auth`: `null` body, with
`client_key`, `client_secret`, `code` and `grant_type` as URL query
parameters (the axios `params` option). -/
def tokenExchangeCall (cfg : AuthConfig) (code : String) : OutboundCall :=
  { method := "POST"
    url := tokenEndpointUrl
    body := none
    params := [("client_key", cfg.clientKey), ("client_secret", cfg.clientSecret),
               ("code", code), ("grant_type", "authorization_code")] }

/-- Handler of `GET /on_auth`. `query` is the request's query string as an
association list; `tokenResult` is the oracle for the external token
endpoint (consulted only when the outbound call is issued). Returns the
response and the list of outbound calls the run issued. -/
def onAuthHandler (cfg : AuthConfig) (query : List (String × String))
    (tokenResult : Except JsErr Json) : HttpResponse × List OutboundCall :=
  let code := lookupParam query "code"
  if jsTruthy code = false then
    ({ status := 400, body := .text "Missing code" }, [])
  else
    let call := tokenExchangeCall cfg (code.getD "")
    match tokenResult with
    | .ok tokenData =>
        let frontend := jsOrDefault cfg.frontendUrl "/"
        let tokenQuery := encodeURIComponent (Json.stringify tokenData)
        ({ status := 302, body := .redirect (frontend ++ "?token=" ++ tokenQuery) }, [call])
    | .error _ =>
        ({ status := 500, body := .text "Token exchange failed" }, [call])

/-- A `POST /upload` request after multer ran: `file` is the temp path of
the uploaded `video` field when one was attached (multer already wrote it
to `/tmp/uploads/`), `access_token` the optional body field. -/
structure UploadReq where
  file : Option String
  access_token : Option String
deriving DecidableEq

/-- Model of `fs.unlinkSync`: removes the path from the file system, or
throws `ENOENT` when the path does not exist. -/
def unlinkSync (p : String) (fs : Finset String) : Except JsErr (Finset String) :=
  if p ∈ fs then .ok (fs.erase p)
  else .error ⟨"ENOENT: no such file or directory, unlink " ++ p⟩

/-- Response body `res.status(400).json(...)` for a missing file. -/
def noFileBody : Json :=
  .obj [("ok", .bool false), ("message", .str "No file uploaded")]

/-- Response body of the demo path (no access token supplied). -/
def demoBody : Json :=
  .obj [("ok", .bool true), ("demo", .bool true),
        ("message", .str "Demo upload accepted (no TikTok call)")]

/-- Response body of the placeholder success path (token supplied). -/
def receivedBody : Json :=
  .obj [("ok", .bool true),
        ("message", .str "File received. In production this would be uploaded to TikTok (demo mode).")]

/-- Outcome of one `/upload` request: the response sent, the file system
after the run, and the outbound calls issued (always none in the source). -/
structure UploadOutcome where
  response : HttpResponse
  fs : Finset String
  calls : List OutboundCall

/-- Body of the `try` block of the `/upload` handler. `exc` injects an
unexpected exception thrown during file handling, after the file was
accepted (written by multer) and before the `fs.unlinkSync` call is
reached; `fs.unlinkSync` itself may also throw. The handler issues no
outbound call on any path. -/
def uploadTry (req : UploadReq) (exc : Option JsErr) (fs : Finset String) :
    Except JsErr (HttpResponse × Finset String) :=
  match req.file with
  | none => .ok ({ status := 400, body := .json noFileBody }, fs)
  | some path =>
    match exc with
    | some e => .error e
    | none =>
      if jsTruthy req.access_token = false then
        match unlinkSync path fs with
        | .ok fs2 => .ok ({ status := 200, body := .json demoBody }, fs2)
        | .error e => .error e
      else
        match unlinkSync path fs with
        | .ok fs2 => .ok ({ status := 200, body := .json receivedBody }, fs2)
        | .error e => .error e

/-- Handler of `POST /upload`: the `try`/`catch` wrapper. On an exception
it responds `500 \x7bok:false, error: err.message\x7d` and performs no
clean-up of the file system. -/
def uploadHandler (req : UploadReq) (exc : Option JsErr) (fs : Finset String) :
    UploadOutcome :=
  match uploadTry req exc fs with
  | .ok (resp, fs2) => { response := resp, fs := fs2, calls := [] }
  | .error e =>
      { response := { status := 500, body := .json (.obj [("ok", .bool false), ("error", .str e.message)]) }
        fs := fs
        calls := [] }

/-- Handler of `GET /`. -/
def healthHandler : HttpResponse :=
  { status := 200, body := .text "FrameLift AI backend running" }

/-- Concrete configuration used by witnesses and counterexamples. -/
def cfgEx : AuthConfig :=
  { clientKey := "demo-key", clientSecret := "demo-secret", frontendUrl := some "https://front" }

/-- C1: for every request to `/on_auth` carrying a `code` query parameter,
in a run where the token-endpoint call was issued and the endpoint answered
with payload `P`, the handler responds `302` redirecting to the configured
frontend base URL (default `/`) followed by `?token=` and the
URL-encoding of the JSON serialization of `P`; `P` is arbitrary, passed
through unmodified and uninterpreted. -/
theorem onAuth_success_redirects_with_encoded_payload
    (cfg : AuthConfig) (query : List (String × String)) (P : Json) (c : String)
    (hc : lookupParam query "code" = some c)
    (hcall : (onAuthHandler cfg query (.ok P)).2 ≠ []) :
    (onAuthHandler cfg query (.ok P)).1 =
      { status := 302
        body := .redirect (jsOrDefault cfg.frontendUrl "/" ++ "?token=" ++
          encodeURIComponent (Json.stringify P)) } := by
  unfold onAuthHandler at hcall ⊢
  by_cases h : jsTruthy (lookupParam query "code") = false
  · simp [h] at hcall
  · simp [h]

/-- Witness for C1 at a concrete request and payload. -/
theorem onAuth_success_redirects_with_encoded_payload_witness :
    lookupParam [("code", "abc")] "code" = some "abc" ∧
    (onAuthHandler cfgEx [("code", "abc")] (.ok (.obj [("t", .str "x")]))).2 ≠ [] ∧
    (onAuthHandler cfgEx [("code", "abc")] (.ok (.obj [("t", .str "x")]))).1 =
      { status := 302, body := .redirect "https://front?token=%7B%22t%22%3A%22x%22%7D" } :=
  ⟨rfl, by decide,
   onAuth_success_redirects_with_encoded_payload cfgEx [("code", "abc")]
     (.obj [("t", .str "x")]) "abc" rfl (by decide)⟩

/-- C2 counterexample: the query `?code=` carries a `code` parameter (with
empty value), yet the handler issues no outbound POST at all — it responds
`400` because JavaScript treats the empty string as falsy (`!code`). -/
theorem onAuth_empty_code_issues_no_call :
    lookupParam [("code", "")] "code" = some "" ∧
    (onAuthHandler cfgEx [("code", "")] (.ok .null)).2 = [] ∧
    (onAuthHandler cfgEx [("code", "")] (.ok .null)).1.status = 400 :=
  ⟨rfl, rfl, rfl⟩

/-- C2 amended: for every request to `/on_auth` carrying a non-empty
`code`, the handler issues exactly one outbound POST to the platform token
endpoint, with `client_key`, `client_secret`, the verbatim incoming `code`
and `grant_type = authorization_code` as URL query parameters and no
request body — regardless of how the endpoint answers. -/
theorem onAuth_nonempty_code_single_post
    (cfg : AuthConfig) (query : List (String × String)) (r : Except JsErr Json) (c : String)
    (hc : lookupParam query "code" = some c) (hne : c ≠ "") :
    (onAuthHandler cfg query r).2 =
      [{ method := "POST"
         url := tokenEndpointUrl
         body := none
         params := [("client_key", cfg.clientKey), ("client_secret", cfg.clientSecret),
                    ("code", c), ("grant_type", "authorization_code")] }] := by
  unfold onAuthHandler
  rw [hc]
  cases r <;> simp [jsTruthy, hne, tokenExchangeCall]

/-- Witness for the amended C2 at a concrete request. -/
theorem onAuth_nonempty_code_single_post_witness :
    lookupParam [("code", "abc")] "code" = some "abc" ∧ "abc" ≠ "" ∧
    (onAuthHandler cfgEx [("code", "abc")] (.ok .null)).2 =
      [{ method := "POST"
         url := tokenEndpointUrl
         body := none
         params := [("client_key", "demo-key"), ("client_secret", "demo-secret"),
                    ("code", "abc"), ("grant_type", "authorization_code")] }] :=
  ⟨rfl, by decide,
   onAuth_nonempty_code_single_post cfgEx [("code", "abc")] (.ok .null) "abc" rfl (by decide)⟩

/-- C5: for every request to `/on_auth` whose query lacks the `code`
parameter, the handler responds `400` with a plain-text message and issues
no outbound call, whatever the external endpoint would have answered. -/
theorem onAuth_missing_code_400
    (cfg : AuthConfig) (query : List (String × String)) (r : Except JsErr Json)
    (h : lookupParam query "code" = none) :
    onAuthHandler cfg query r =
      ({ status := 400, body := .text "Missing code" }, []) := by
  unfold onAuthHandler
  rw [h]
  simp [jsTruthy]

/-- Witness for C5 at a concrete request with an empty query. -/
theorem onAuth_missing_code_400_witness :
    lookupParam [] "code" = none ∧
    onAuthHandler cfgEx [] (.ok .null) =
      ({ status := 400, body := .text "Missing code" }, []) :=
  ⟨rfl, onAuth_missing_code_400 cfgEx [] (.ok .null) rfl⟩

/-- C6: for every request to `/on_auth` carrying a `code`, in a run where
the token-endpoint call was issued and failed, the handler responds `500`
with the fixed generic message — independent of the upstream error detail
(`e` is universally quantified and the final conjunct shows the response
does not vary with it) — and exactly one outbound attempt was made. -/
theorem onAuth_upstream_failure_500
    (cfg : AuthConfig) (query : List (String × String)) (e : JsErr) (c : String)
    (hc : lookupParam query "code" = some c)
    (hcall : (onAuthHandler cfg query (.error e)).2 ≠ []) :
    (onAuthHandler cfg query (.error e)).1 =
      { status := 500, body := .text "Token exchange failed" } ∧
    (onAuthHandler cfg query (.error e)).2.length = 1 ∧
    (∀ e' : JsErr, (onAuthHandler cfg query (.error e')).1 =
      (onAuthHandler cfg query (.error e)).1) := by
  unfold onAuthHandler at hcall ⊢
  by_cases h : jsTruthy (lookupParam query "code") = false
  · simp [h] at hcall
  · simp [h]

/-- Witness for C6 at a concrete request and upstream error. -/
theorem onAuth_upstream_failure_500_witness :
    lookupParam [("code", "abc")] "code" = some "abc" ∧
    (onAuthHandler cfgEx [("code", "abc")] (.error ⟨"ECONNREFUSED"⟩)).2 ≠ [] ∧
    ((onAuthHandler cfgEx [("code", "abc")] (.error ⟨"ECONNREFUSED"⟩)).1 =
      { status := 500, body := .text "Token exchange failed" } ∧
     (onAuthHandler cfgEx [("code", "abc")] (.error ⟨"ECONNREFUSED"⟩)).2.length = 1 ∧
     (∀ e' : JsErr, (onAuthHandler cfgEx [("code", "abc")] (.error e')).1 =
       (onAuthHandler cfgEx [("code", "abc")] (.error ⟨"ECONNREFUSED"⟩)).1)) :=
  ⟨rfl, by decide,
   onAuth_upstream_failure_500 cfgEx [("code", "abc")] ⟨"ECONNREFUSED"⟩ "abc" rfl (by decide)⟩

/-- C3: for every request to `/upload` with a file (multer wrote it, so its
temp path exists) and no `access_token` field, the handler deletes the temp
file, makes no external call, and responds `200` with the demo body, whose
`ok` and `demo` fields are both `true`; afterwards the temp file no longer
exists. -/
theorem upload_no_token_demo
    (p : String) (fs : Finset String) (hp : p ∈ fs) :
    uploadHandler { file := some p, access_token := none } none fs =
      { response := { status := 200, body := .json demoBody }
        fs := fs.erase p
        calls := [] } ∧
    p ∉ fs.erase p ∧
    demoBody.lookup "ok" = some (.bool true) ∧
    demoBody.lookup "demo" = some (.bool true) := by
  refine ⟨?_, Finset.not_mem_erase p fs, rfl, rfl⟩
  unfold uploadHandler uploadTry
  simp [jsTruthy, unlinkSync, hp]

/-- Witness for C3 at a concrete request and file system. -/
theorem upload_no_token_demo_witness :
    "/tmp/uploads/v" ∈ ({"/tmp/uploads/v"} : Finset String) ∧
    (uploadHandler { file := some "/tmp/uploads/v", access_token := none } none
        {"/tmp/uploads/v"} =
      { response := { status := 200, body := .json demoBody }
        fs := ({"/tmp/uploads/v"} : Finset String).erase "/tmp/uploads/v"
        calls := [] } ∧
     "/tmp/uploads/v" ∉ ({"/tmp/uploads/v"} : Finset String).erase "/tmp/uploads/v" ∧
     demoBody.lookup "ok" = some (.bool true) ∧
     demoBody.lookup "demo" = some (.bool true)) :=
  ⟨by decide, upload_no_token_demo "/tmp/uploads/v" {"/tmp/uploads/v"} (by decide)⟩

/-- C4 counterexample: a request carrying both a file and an `access_token`
field whose value is the empty string is routed to the demo path — the
response body contains `demo:true` — because JavaScript treats the empty
string as falsy (`!accessToken`). -/
theorem upload_empty_token_gets_demo_response :
    (uploadHandler { file := some "/tmp/uploads/v", access_token := some "" } none
        {"/tmp/uploads/v"}).response =
      { status := 200, body := .json demoBody } ∧
    demoBody.lookup "demo" = some (.bool true) :=
  ⟨rfl, rfl⟩

/-- C4 amended: for every request to `/upload` with a file (its temp path
existing) and a non-empty `access_token`, the handler deletes the temp
file, makes no external call, and responds `200` with the placeholder
"received" body — `ok:true` and no `demo` field; afterwards the temp file
no longer exists. -/
theorem upload_nonempty_token_received
    (p t : String) (fs : Finset String) (ht : t ≠ "") (hp : p ∈ fs) :
    uploadHandler { file := some p, access_token := some t } none fs =
      { response := { status := 200, body := .json receivedBody }
        fs := fs.erase p
        calls := [] } ∧
    p ∉ fs.erase p ∧
    receivedBody.lookup "ok" = some (.bool true) ∧
    receivedBody.lookup "demo" = none := by
  refine ⟨?_, Finset.not_mem_erase p fs, rfl, rfl⟩
  unfold uploadHandler uploadTry
  simp [jsTruthy, unlinkSync, hp, ht]

/-- Witness for the amended C4 at a concrete request and file system. -/
theorem upload_nonempty_token_received_witness :
    "tok" ≠ "" ∧ "/tmp/uploads/v" ∈ ({"/tmp/uploads/v"} : Finset String) ∧
    (uploadHandler { file := some "/tmp/uploads/v", access_token := some "tok" } none
        {"/tmp/uploads/v"} =
      { response := { status := 200, body := .json receivedBody }
        fs := ({"/tmp/uploads/v"} : Finset String).erase "/tmp/uploads/v"
        calls := [] } ∧
     "/tmp/uploads/v" ∉ ({"/tmp/uploads/v"} : Finset String).erase "/tmp/uploads/v" ∧
     receivedBody.lookup "ok" = some (.bool true) ∧
     receivedBody.lookup "demo" = none) :=
  ⟨by decide, by decide,
   upload_nonempty_token_received "/tmp/uploads/v" "tok" {"/tmp/uploads/v"}
     (by decide) (by decide)⟩

/-- C7: for every request to `/upload` with no file attached — whatever the
body token, the file system, or a pending exception — the handler responds
`400` with exactly the JSON body `\x7bok:false, message:"No file uploaded"\x7d`,
touching nothing and calling nobody. -/
theorem upload_no_file_400
    (tok : Option String) (exc : Option JsErr) (fs : Finset String) :
    uploadHandler { file := none, access_token := tok } exc fs =
      { response := { status := 400, body := .json noFileBody }
        fs := fs
        calls := [] } ∧
    noFileBody = .obj [("ok", .bool false), ("message", .str "No file uploaded")] := by
  constructor
  · unfold uploadHandler uploadTry
    rfl
  · rfl

/-- C8: whenever an exception is raised inside the `try` block of the
`/upload` handler, it is caught — the handler still produces a response —
and that response is `500` with JSON body `\x7bok:false, error: message\x7d`
exposing the exception's message to the caller. -/
theorem upload_exception_caught_500
    (req : UploadReq) (exc : Option JsErr) (fs : Finset String) (e : JsErr)
    (he : uploadTry req exc fs = .error e) :
    uploadHandler req exc fs =
      { response := { status := 500
                      body := .json (.obj [("ok", .bool false), ("error", .str e.message)]) }
        fs := fs
        calls := [] } := by
  unfold uploadHandler
  rw [he]

/-- Witness for C8: a concrete run whose `try` block throws. -/
theorem upload_exception_caught_500_witness :
    uploadTry { file := some "/tmp/uploads/v", access_token := none } (some ⟨"boom"⟩) ∅ =
      .error ⟨"boom"⟩ ∧
    uploadHandler { file := some "/tmp/uploads/v", access_token := none } (some ⟨"boom"⟩) ∅ =
      { response := { status := 500
                      body := .json (.obj [("ok", .bool false), ("error", .str "boom")]) }
        fs := ∅
        calls := [] } :=
  ⟨rfl,
   upload_exception_caught_500 { file := some "/tmp/uploads/v", access_token := none }
     (some ⟨"boom"⟩) ∅ ⟨"boom"⟩ rfl⟩

/-- C9: when an exception is raised after the file was accepted (its temp
path exists) and before the `fs.unlinkSync` call is reached, the handler
answers `500` and the temp file still exists afterwards: the `catch` block
performs no clean-up. -/
theorem upload_exception_leaves_temp_file
    (p : String) (tok : Option String) (e : JsErr) (fs : Finset String) (hp : p ∈ fs) :
    (uploadHandler { file := some p, access_token := tok } (some e) fs).response.status = 500 ∧
    (uploadHandler { file := some p, access_token := tok } (some e) fs).fs = fs ∧
    p ∈ (uploadHandler { file := some p, access_token := tok } (some e) fs).fs := by
  refine ⟨rfl, rfl, hp⟩

/-- Witness for C9 at a concrete request, exception and file system. -/
theorem upload_exception_leaves_temp_file_witness :
    "/tmp/uploads/v" ∈ ({"/tmp/uploads/v"} : Finset String) ∧
    ((uploadHandler { file := some "/tmp/uploads/v", access_token := none } (some ⟨"boom"⟩)
        {"/tmp/uploads/v"}).response.status = 500 ∧
     (uploadHandler { file := some "/tmp/uploads/v", access_token := none } (some ⟨"boom"⟩)
        {"/tmp/uploads/v"}).fs = {"/tmp/uploads/v"} ∧
     "/tmp/uploads/v" ∈ (uploadHandler { file := some "/tmp/uploads/v", access_token := none }
        (some ⟨"boom"⟩) {"/tmp/uploads/v"}).fs) :=
  ⟨by decide,
   upload_exception_leaves_temp_file "/tmp/uploads/v" none ⟨"boom"⟩ {"/tmp/uploads/v"}
     (by decide)⟩

/-- C10: the file-presence check runs before the access-token check: a
request with neither a file nor an `access_token` gets the `400` no-file
error, not the `200` demo success, and no deletion is attempted — the file
system is returned unchanged. -/
theorem upload_file_check_before_token_check
    (exc : Option JsErr) (fs : Finset String) :
    uploadHandler { file := none, access_token := none } exc fs =
      { response := { status := 400, body := .json noFileBody }
        fs := fs
        calls := [] } := by
  unfold uploadHandler uploadTry
  rfl
